import Mathlib

/-!
Shallow embedding of `src/main.mts` (Uniswap v3 pools ATQ module), a
single-file extract-transform script: it resolves a subgraph URL for a
chain id, paginates pools from a GraphQL endpoint, filters out pools whose
token names or symbols contain HTML-like markup, and renders the remaining
pools into contract-tag records.

Modelling conventions:
- JS strings are Lean `String`; string lengths and indexing are in
  characters (all relevant literals are ASCII, matching UTF-16 units).
- Network effects are made explicit: the sequence of HTTP responses the
  server would deliver is an input (`List FetchResponse`, consumed in
  order), and the run result records the cursors actually sent, so that
  request traces can be stated.
- Thrown JS errors become `Except String` / an explicit error outcome;
  `console` logging becomes an explicit list of logged strings where a
  claim depends on it.
-/

namespace ATQ

/-- `interface PoolToken { id; name; symbol }` from the source (also
re-declared there as `Token`; the shapes are identical). -/
structure PoolToken where
  id : String
  name : String
  symbol : String
deriving DecidableEq, Repr

/-- `interface Pool { id; createdAtTimestamp; token0; token1 }` from the
source. `createdAtTimestamp` is a (nonnegative integer) unix timestamp. -/
structure Pool where
  id : String
  createdAtTimestamp : Nat
  token0 : PoolToken
  token1 : PoolToken
deriving DecidableEq, Repr

/-- Output record of the transformer. Field names are the Lean renderings
of the string keys used in the source: "Contract Address", "Public Name Tag",
"Project Name", "UI/Website Link", "Public Note". -/
structure ContractTag where
  contractAddress : String
  publicNameTag : String
  projectName : String
  websiteLink : String
  publicNote : String
deriving DecidableEq, Repr

/-- One element of the `errors` array of a GraphQL response body. -/
structure GraphQLError where
  message : String
deriving DecidableEq, Repr

/-- `interface GraphQLData { pools: Pool[] }`. The `pools` field is an
`Option` because the runtime check `!result.data.pools` also guards a JSON
body whose `data` object lacks the field (an empty array is truthy in JS
and passes the check, hence `some []` passes here). -/
structure GraphQLData where
  pools : Option (List Pool)
deriving DecidableEq, Repr

/-- `interface GraphQLResponse { data?; errors? }`: both fields optional.
`errors = some []` models a present-but-empty errors array, which is a
truthy value in JS. -/
structure GraphQLResponse where
  data : Option GraphQLData
  errors : Option (List GraphQLError)
deriving DecidableEq, Repr

/-- The observable part of a `fetch` response: the `ok` flag, the numeric
`status`, and the decoded JSON body. -/
structure FetchResponse where
  ok : Bool
  status : Nat
  body : GraphQLResponse
deriving DecidableEq, Repr

/-- An all-empty pool, used only as the `getLastD` default when indexing
`pools[pools.length - 1]` (the source indexes only lists of length 1000,
so the default is never exposed). -/
def defaultPool : Pool :=
  { id := "", createdAtTimestamp := 0,
    token0 := { id := "", name := "", symbol := "" },
    token1 := { id := "", name := "", symbol := "" } }

/-! ### `containsHtmlOrMarkdown` -/

/-- Embedding of the regex test `/<[^>]*>/.test(text)` on the character
list: the regex matches exactly when some occurrence of a literal open
angle bracket is followed, further right, by a close angle bracket (the
first such close bracket has only non-close characters before it, matching
the character class). -/
def hasHtmlTagChars : List Char → Bool
  | [] => false
  | c :: rest => (c = '<' && rest.contains '>') || hasHtmlTagChars rest

/-- `containsHtmlOrMarkdown(text)` from the source: a simple HTML tag
detection via the regex `<[^>]*>`. -/
def containsHtmlOrMarkdown (text : String) : Bool :=
  hasHtmlTagChars text.data

/-! ### `truncateString` -/

/-- `truncateString(text, maxLength)` from the source: if `text` is longer
than `maxLength`, keep the first `maxLength - 3` characters and append an
ellipsis. JS `substring(0, maxLength - 3)` clamps a negative bound to 0,
which truncated `Nat` subtraction reproduces. -/
def truncateString (text : String) (maxLength : Nat) : String :=
  if text.length > maxLength then
    String.mk (text.data.take (maxLength - 3)) ++ "..."
  else text

/-! ### `SUBGRAPH_URLS` and `prepareUrl` -/

/-- The keys of the `SUBGRAPH_URLS` record in the order `Object.keys`
enumerates them: all four are canonical numeric strings (array-index
keys), which ECMAScript enumerates in ascending numeric order, not in the
insertion order of the object literal. -/
def subgraphUrlKeys : List String := ["1", "10", "137", "42220"]

/-- The `SUBGRAPH_URLS` record as a lookup: chain id to the decentralized
endpoint URL template. -/
def SUBGRAPH_URLS (chainId : String) : Option String :=
  if chainId = "1" then
    some "https://gateway-arbitrum.network.thegraph.com/api/[api-key]/deployments/id/QmZeCuoZeadgHkGwLwMeguyqUKz1WPWQYKcKyMCeQqGhsF"
  else if chainId = "137" then
    some "https://gateway-arbitrum.network.thegraph.com/api/[api-key]/deployments/id/QmdAaDAUDCypVB85eFUkQMkS5DE1HV4s7WJb6iSiygNvAw"
  else if chainId = "10" then
    some "https://gateway-arbitrum.network.thegraph.com/api/[api-key]/deployments/id/QmbTaWMFk4baXnoKQodnyYsFVKFNEiLsgZAe6eu2Sdj8Ef"
  else if chainId = "42220" then
    some "https://gateway-arbitrum.network.thegraph.com/api/[api-key]/deployments/id/QmXfJmxY7C4A4UoWEexvei8XzcSxMegr78rt3Rzz8szkZA"
  else
    none

/-- `isNaN(Number(chainId))` from `prepareUrl`. The check is reachable
only when the record lookup succeeded, i.e. on the four digit-string keys,
where `Number` parses a decimal integer and `isNaN` is false; "not a
nonempty digit string" agrees with the JS value on every input for which
the result is observable. -/
def jsNumberIsNaN (chainId : String) : Bool :=
  !(chainId.length > 0 && chainId.data.all Char.isDigit)

/-- Does `pat` occur at the head of `s`? (Helper for first-occurrence
string replacement.) -/
def charsStartWith : List Char → List Char → Bool
  | [], _ => true
  | _ :: _, [] => false
  | p :: ps, c :: cs => p = c && charsStartWith ps cs

/-- JS `String.prototype.replace` with a string pattern: replace the FIRST
occurrence of `pat` in `s` by `rep` (on character lists). -/
def replaceFirstChars (s pat rep : List Char) : List Char :=
  match s with
  | [] => []
  | c :: rest =>
    if charsStartWith pat (c :: rest) then rep ++ (c :: rest).drop pat.length
    else c :: replaceFirstChars rest pat rep

/-- JS `s.replace(pat, rep)` on `String`. -/
def jsReplaceFirst (s pat rep : String) : String :=
  String.mk (replaceFirstChars s.data pat.data rep.data)

/-- UTF-8 bytes of a character (as numbers below 256), by the standard
encoding; used by `encodeURIComponent`. -/
def utf8Bytes (c : Char) : List Nat :=
  let n := c.toNat
  if n < 0x80 then [n]
  else if n < 0x800 then [0xC0 + n / 64, 0x80 + n % 64]
  else if n < 0x10000 then
    [0xE0 + n / 4096, 0x80 + (n / 64) % 64, 0x80 + n % 64]
  else
    [0xF0 + n / 262144, 0x80 + (n / 4096) % 64, 0x80 + (n / 64) % 64,
     0x80 + n % 64]

/-- Upper-case hexadecimal digit for a number below 16. -/
def hexDigitChar (n : Nat) : Char :=
  (String.mk ['0', '1', '2', '3', '4', '5', '6', '7', '8', '9',
              'A', 'B', 'C', 'D', 'E', 'F']).data.getD n '0'

/-- Percent-encoding of one byte: `%XX` with upper-case hex. -/
def percentEncodeByte (b : Nat) : String :=
  String.mk ['%', hexDigitChar (b / 16 % 16), hexDigitChar (b % 16)]

/-- The characters `encodeURIComponent` leaves unescaped: ASCII letters,
digits, and the marks dash, underscore, dot, bang, tilde, star, single
quote (code 39), and parentheses. -/
def uriUnreserved (c : Char) : Bool :=
  c.isAlpha || c.isDigit ||
    (c :: []).contains '-' || c = '_' || c = '.' || c = '!' || c = '~' ||
    c = '*' || c = Char.ofNat 39 || c = '(' || c = ')'

/-- JS `encodeURIComponent`: keep unreserved characters, percent-encode
the UTF-8 bytes of every other character. -/
def encodeURIComponent (s : String) : String :=
  s.data.foldl
    (fun acc c =>
      if uriUnreserved c then acc ++ String.mk [c]
      else acc ++ String.join ((utf8Bytes c).map percentEncodeByte))
    ""

/-- The error message thrown by `prepareUrl` for an unsupported chain id:
it names the offending id and lists `Object.keys(SUBGRAPH_URLS)` joined by
", ". -/
def unsupportedChainMessage (chainId : String) : String :=
  "Unsupported or invalid Chain ID provided: " ++ chainId ++
    ". Only the following values are accepted: " ++
    String.intercalate ", " subgraphUrlKeys

/-- `prepareUrl(chainId, apiKey)` from the source: look up the chain id in
`SUBGRAPH_URLS`; throw the unsupported-chain error if the lookup fails or
the id is not numeric; otherwise substitute the percent-encoded API key
for the `[api-key]` placeholder. -/
def prepareUrl (chainId apiKey : String) : Except String String :=
  match SUBGRAPH_URLS chainId with
  | none => .error (unsupportedChainMessage chainId)
  | some url =>
    if jsNumberIsNaN chainId then .error (unsupportedChainMessage chainId)
    else .ok (jsReplaceFirst url "[api-key]" (encodeURIComponent apiKey))

/-! ### `fetchData` -/

/-- The processing `fetchData` applies to one already-delivered response. The first
component is the list of `console.error` lines it emits; the second is the
returned pool list or the thrown error message. Branches, in source order:
non-`ok` status throws `HTTP error: <status>`; a present `errors` field
(truthy in JS even when the array is empty) logs every contained message
and throws the generic GraphQL message; a missing `data` object or missing
`pools` field throws `No pools data found.`; otherwise the pools are
returned. -/
def fetchData (response : FetchResponse) :
    List String × Except String (List Pool) :=
  if response.ok = false then
    ([], .error ("HTTP error: " ++ toString response.status))
  else
    match response.body.errors with
    | some errs =>
      (errs.map (fun e => "GraphQL error: " ++ e.message),
       .error "GraphQL errors occurred: see logs for details.")
    | none =>
      match response.body.data with
      | none => ([], .error "No pools data found.")
      | some d =>
        match d.pools with
        | none => ([], .error "No pools data found.")
        | some pools => ([], .ok pools)

/-! ### `transformPoolsToTags` -/

/-- `token0Invalid` from the filter pass of the transformer. -/
def token0Invalid (pool : Pool) : Bool :=
  containsHtmlOrMarkdown pool.token0.name ||
    containsHtmlOrMarkdown pool.token0.symbol

/-- `token1Invalid` from the filter pass of the transformer. -/
def token1Invalid (pool : Pool) : Bool :=
  containsHtmlOrMarkdown pool.token1.name ||
    containsHtmlOrMarkdown pool.token1.symbol

/-- A pool is rejected when either token is flagged. -/
def poolRejected (pool : Pool) : Bool :=
  token0Invalid pool || token1Invalid pool

/-- The `validPools` accumulator of `transformPoolsToTags`: the input
pools, in order, with rejected pools dropped. -/
def validPools (pools : List Pool) : List Pool :=
  pools.filter (fun pool => !poolRejected pool)

/-- The `rejectedNames` accumulator of `transformPoolsToTags`: for each
rejected pool, in order, a "name, Symbol: symbol" line per flagged token
(token0 first), batched for one diagnostic log per call. -/
def rejectedNames (pools : List Pool) : List String :=
  pools.foldr
    (fun pool acc =>
      (if token0Invalid pool then
        [pool.token0.name ++ ", Symbol: " ++ pool.token0.symbol]
      else []) ++
      (if token1Invalid pool then
        [pool.token1.name ++ ", Symbol: " ++ pool.token1.symbol]
      else []) ++ acc)
    []

/-- The body of the `validPools.map` callback in `transformPoolsToTags`:
one valid pool to one tag. -/
def poolToTag (chainId : String) (pool : Pool) : ContractTag :=
  let maxSymbolsLength : Nat := 45
  let symbolsText := pool.token0.symbol ++ "/" ++ pool.token1.symbol
  let truncatedSymbolsText := truncateString symbolsText maxSymbolsLength
  { contractAddress := "eip155:" ++ chainId ++ ":" ++ pool.id
    publicNameTag := truncatedSymbolsText ++ " Pool"
    projectName := "Uniswap v3"
    websiteLink := "https://uniswap.org"
    publicNote := "The liquidity pool contract on Uniswap v3 for the " ++
      pool.token0.name ++ " (" ++ pool.token0.symbol ++ ") / " ++
      pool.token1.name ++ " (" ++ pool.token1.symbol ++ ") pair." }

/-- `transformPoolsToTags(chainId, pools)` from the source: filter to the
valid pools (logging the rejected names as a side effect, see
`rejectedNames`), then map each remaining pool to its tag. -/
def transformPoolsToTags (chainId : String) (pools : List Pool) :
    List ContractTag :=
  (validPools pools).map (poolToTag chainId)

/-! ### JS decimal printing and `parseInt`, for the cursor update
`parseInt(pools[pools.length - 1].createdAtTimestamp.toString(), 10)` -/

/-- Decimal digits of a nonnegative integer, least significant first
(`0` prints as `[0]`, matching JS `Number.prototype.toString`, which never
prints an empty string). -/
def decDigitsRev (n : Nat) : List Nat :=
  if h : n < 10 then [n]
  else n % 10 :: decDigitsRev (n / 10)
decreasing_by exact Nat.div_lt_self (by omega) (by omega)

/-- JS `x.toString()` for a nonnegative integer `x`: its decimal digit
string, most significant digit first. -/
def jsNatToString (n : Nat) : String :=
  String.mk ((decDigitsRev n).reverse.map Nat.digitChar)

/-- JS `parseInt(s, 10)` restricted to its use site: accumulate leading
decimal digits (the argument there is `toString` of a nonnegative integer,
so it is a nonempty all-digit string and no sign/whitespace/NaN handling
is observable). -/
def jsParseInt10Aux : List Char → Nat → Nat
  | [], acc => acc
  | c :: rest, acc =>
    if c.isDigit then jsParseInt10Aux rest (10 * acc + (c.toNat - 48))
    else acc

/-- JS `parseInt(s, 10)` on a digit string. -/
def jsParseInt10 (s : String) : Nat :=
  jsParseInt10Aux s.data 0

/-- The cursor update of `returnTags`:
`parseInt(ts.toString(), 10)` for the timestamp `ts`. -/
def cursorOfTimestamp (ts : Nat) : Nat :=
  jsParseInt10 (jsNatToString ts)

/-! ### `returnTags` -/

/-- JS string conversion of an `Error` object with the given message
(`Error.prototype.toString`): the name `Error`, then `": "` and the
message when the message is nonempty. -/
def jsErrorToString (msg : String) : String :=
  if msg = "" then "Error" else "Error: " ++ msg

/-- The wrapped message re-thrown by the catch block of `returnTags`:
`Failed fetching data: ${error}`. Every value thrown inside the loop is an
`Error` with a string message, so the `isError` guard always takes the
recognized-error branch. -/
def wrapCaughtError (msg : String) : String :=
  "Failed fetching data: " ++ jsErrorToString msg

/-- Result of one run of `returnTags`: the resolved tag list, a rejection
with the thrown message, or `incomplete` when the supplied response trace
ran out before the loop finished (the stand-in of the model for a still-pending
network request; no claim concerns it). -/
inductive RunOutcome where
  | tags (ts : List ContractTag)
  | err (msg : String)
  | incomplete
deriving DecidableEq, Repr

/-- The `while (isMore)` loop of `returnTags`, driven by the remaining
server responses. State: the cursor `lastTimestamp` and the accumulator
`allTags`. Returns the cursors sent with the requests actually issued (in
order) and the outcome. One iteration: fetch (consume one response); on a
thrown error, catch, wrap and re-throw; otherwise append the tags of the
page; a page of exactly 1000 pools continues with the cursor set to
`parseInt` of the timestamp of the last pool, any shorter page ends the
loop. -/
def returnTagsLoop (chainId : String) :
    List FetchResponse → Nat → List ContractTag → List Nat × RunOutcome
  | [], _lastTimestamp, _allTags => ([], .incomplete)
  | response :: rest, lastTimestamp, allTags =>
    match (fetchData response).2 with
    | .error msg => ([lastTimestamp], .err (wrapCaughtError msg))
    | .ok pools =>
      let allTags' := allTags ++ transformPoolsToTags chainId pools
      if pools.length = 1000 then
        let next := returnTagsLoop chainId rest
          (cursorOfTimestamp (pools.getLastD defaultPool).createdAtTimestamp)
          allTags'
        (lastTimestamp :: next.1, next.2)
      else
        ([lastTimestamp], .tags allTags')

/-- `returnTags(chainId, apiKey)` from the source, with the network made
explicit as the list of responses the server delivers: resolve the URL
(an unsupported chain throws before any request), then run the pagination
loop from cursor 0 with an empty accumulator. -/
def returnTags (chainId apiKey : String) (responses : List FetchResponse) :
    List Nat × RunOutcome :=
  match prepareUrl chainId apiKey with
  | .error msg => ([], .err msg)
  | .ok _url => returnTagsLoop chainId responses 0 []

/-- A successful HTTP 200 response carrying the given page of pools. -/
def okResponse (pools : List Pool) : FetchResponse :=
  { ok := true, status := 200,
    body := { data := some { pools := some pools }, errors := none } }

/-! ### Concrete fixtures for witnesses -/

/-- The USDC/WETH example pool of the spec. -/
def usdcWethPool : Pool :=
  { id := "0xabc", createdAtTimestamp := 1620250931,
    token0 := { id := "0xt0", name := "USD Coin", symbol := "USDC" },
    token1 := { id := "0xt1", name := "Wrapped Ether", symbol := "WETH" } }

/-- A pool whose first token name carries an HTML tag. -/
def scriptPool : Pool :=
  { id := "0xbad", createdAtTimestamp := 7,
    token0 := { id := "0xt2", name := "<script>alert(1)</script>",
                symbol := "EVIL" },
    token1 := { id := "0xt3", name := "Wrapped Ether", symbol := "WETH" } }

/-- A pool whose combined symbol string is longer than 45 characters. -/
def longSymbolsPool : Pool :=
  { id := "0xlong", createdAtTimestamp := 11,
    token0 := { id := "0xt4", name := "Alpha",
                symbol := "AAAAAAAAAAAAAAAAAAAAAAAAAAAAAA" },
    token1 := { id := "0xt5", name := "Beta",
                symbol := "BBBBBBBBBBBBBBBBBBBBBBBBBBBBBB" } }

/-- The mainnet URL template with the API key `k` substituted. -/
def mainnetUrlKeyK : String :=
  "https://gateway-arbitrum.network.thegraph.com/api/k/deployments/id/QmZeCuoZeadgHkGwLwMeguyqUKz1WPWQYKcKyMCeQqGhsF"

/-- An HTTP 200 response whose body carries one GraphQL error. -/
def graphqlErrorResponse : FetchResponse :=
  { ok := true, status := 200,
    body := { data := none, errors := some [{ message := "bad query" }] } }

/-- An HTTP 200 response whose body carries a present-but-empty errors
array next to perfectly good data. -/
def emptyErrorsResponse : FetchResponse :=
  { ok := true, status := 200,
    body := { data := some { pools := some [] }, errors := some [] } }

/-- A plain HTTP 500 failure response. -/
def http500Response : FetchResponse :=
  { ok := false, status := 500, body := { data := none, errors := none } }

/-! ### Helper lemmas -/

/-- Every decimal digit produced by `decDigitsRev` is below 10. -/
lemma decDigitsRev_lt_ten (n : Nat) : ∀ d ∈ decDigitsRev n, d < 10 := by
  induction n using Nat.strong_induction_on with
  | _ n ih =>
    rw [decDigitsRev]
    split
    · intro d hd
      simp only [List.mem_singleton] at hd
      omega
    · intro d hd
      rcases List.mem_cons.mp hd with h | h
      · subst h
        exact Nat.mod_lt _ (by omega)
      · exact ih (n / 10) (Nat.div_lt_self (by omega) (by omega)) d h

/-- `Nat.digitChar` of a digit is a digit character. -/
lemma digitChar_isDigit (d : Nat) (h : d < 10) :
    (Nat.digitChar d).isDigit = true := by
  interval_cases d <;> decide

/-- Reading the code of `Nat.digitChar` of a digit back as a number
recovers the digit. -/
lemma digitChar_toNat (d : Nat) (h : d < 10) :
    (Nat.digitChar d).toNat - 48 = d := by
  interval_cases d <;> decide

/-- `jsParseInt10Aux` on a rendered digit list folds the digits into the
accumulator in base 10. -/
lemma jsParseInt10Aux_digits (ds : List Nat) (h : ∀ d ∈ ds, d < 10) :
    ∀ acc, jsParseInt10Aux (ds.map Nat.digitChar) acc =
      ds.foldl (fun a d => 10 * a + d) acc := by
  induction ds with
  | nil => intro acc; rfl
  | cons d ds ih =>
    intro acc
    have hd : d < 10 := h d (List.mem_cons_self d ds)
    simp only [List.map_cons, jsParseInt10Aux, digitChar_isDigit d hd,
      if_true, digitChar_toNat d hd, List.foldl_cons]
    exact ih (fun x hx => h x (List.mem_cons_of_mem d hx)) _

/-- Folding the most-significant-first digit list of `n` in base 10
recovers `n` (shifted past the incoming accumulator). -/
lemma foldl_decDigitsRev (n : Nat) :
    ∀ acc, (decDigitsRev n).reverse.foldl (fun a d => 10 * a + d) acc =
      acc * 10 ^ (decDigitsRev n).length + n := by
  induction n using Nat.strong_induction_on with
  | _ n ih =>
    intro acc
    rw [decDigitsRev]
    split
    · simp only [List.reverse_singleton, List.foldl_cons, List.foldl_nil,
        List.length_singleton, pow_one]
      ring
    · rename_i h
      rw [List.reverse_cons, List.foldl_append,
        ih (n / 10) (Nat.div_lt_self (by omega) (by omega)) acc]
      simp only [List.foldl_cons, List.foldl_nil, List.length_cons]
      have hdm : 10 * (n / 10) + n % 10 = n := Nat.div_add_mod n 10
      calc 10 * (acc * 10 ^ (decDigitsRev (n / 10)).length + n / 10) + n % 10
          = acc * (10 ^ (decDigitsRev (n / 10)).length * 10) +
              (10 * (n / 10) + n % 10) := by ring
        _ = acc * 10 ^ ((decDigitsRev (n / 10)).length + 1) + n := by
              rw [hdm, pow_succ]

/-- The cursor update of the source, `parseInt(ts.toString(), 10)`, is the
identity on a nonnegative integer timestamp. -/
lemma cursorOfTimestamp_eq (ts : Nat) : cursorOfTimestamp ts = ts := by
  unfold cursorOfTimestamp jsParseInt10 jsNatToString
  rw [show (String.mk ((decDigitsRev ts).reverse.map Nat.digitChar)).data =
      (decDigitsRev ts).reverse.map Nat.digitChar from rfl]
  rw [jsParseInt10Aux_digits _
    (fun d hd => decDigitsRev_lt_ten ts d (List.mem_reverse.mp hd)) 0]
  rw [foldl_decDigitsRev ts 0]
  simp

/-- `fetchData` on a healthy page response logs nothing and returns the
page. -/
lemma fetchData_okResponse (pools : List Pool) :
    fetchData (okResponse pools) = ([], Except.ok pools) := rfl

/-- Running the pagination loop through a prefix of full (1000-pool)
successful pages reaches the loop on the remaining responses, with the
cursors of the prefix prepended to the request trace and the outcome
unchanged. -/
lemma returnTagsLoop_full_prefix (chainId : String) (pre : List FetchResponse) :
    ∀ (rest : List FetchResponse) (cursor : Nat) (acc : List ContractTag),
      (∀ s ∈ pre, ∃ pools, (fetchData s).2 = Except.ok pools ∧
        pools.length = 1000) →
      ∃ cursor' acc' reqs,
        returnTagsLoop chainId (pre ++ rest) cursor acc =
          (reqs ++ (returnTagsLoop chainId rest cursor' acc').1,
           (returnTagsLoop chainId rest cursor' acc').2) := by
  induction pre with
  | nil =>
    intro rest cursor acc _
    exact ⟨cursor, acc, [], by simp⟩
  | cons r pre ih =>
    intro rest cursor acc h
    obtain ⟨pools, hok, hlen⟩ := h r (List.mem_cons_self r pre)
    obtain ⟨cursor', acc', reqs, heq⟩ :=
      ih rest (cursorOfTimestamp (pools.getLastD defaultPool).createdAtTimestamp)
        (acc ++ transformPoolsToTags chainId pools)
        (fun s hs => h s (List.mem_cons_of_mem r hs))
    refine ⟨cursor', acc', cursor :: reqs, ?_⟩
    simp only [List.cons_append, returnTagsLoop, hok, hlen, if_true,
      List.append_eq, heq]

/-! ### Claims -/

/-- Claim C1: in a run of `returnTags` in which the fetcher returns three
consecutive pages of sizes 1000, 1000 and 400, exactly three requests are
issued; the cursor sent with request N+1 equals the `createdAtTimestamp`
of the last pool of page N, the cursor of the first request is 0, and the
loop stops after the page of size 400 (and, second conjunct: any page of
size less than 1000 ends pagination). -/
theorem returnTags_three_pages (chainId apiKey url : String)
    (p1 p2 p3 : List Pool) (post : List FetchResponse)
    (hurl : prepareUrl chainId apiKey = Except.ok url)
    (h1 : p1.length = 1000) (h2 : p2.length = 1000) (h3 : p3.length = 400) :
    returnTags chainId apiKey
        (okResponse p1 :: okResponse p2 :: okResponse p3 :: post) =
      ([0, (p1.getLastD defaultPool).createdAtTimestamp,
        (p2.getLastD defaultPool).createdAtTimestamp],
       RunOutcome.tags (transformPoolsToTags chainId p1 ++
         (transformPoolsToTags chainId p2 ++
          transformPoolsToTags chainId p3))) ∧
    ∀ (q : List Pool) (rest : List FetchResponse) (cursor : Nat)
      (acc : List ContractTag), q.length < 1000 →
      returnTagsLoop chainId (okResponse q :: rest) cursor acc =
        ([cursor], RunOutcome.tags (acc ++ transformPoolsToTags chainId q)) := by
  constructor
  · simp only [returnTags, hurl]
    simp only [returnTagsLoop, fetchData_okResponse, h1, h2, h3,
      cursorOfTimestamp_eq, List.nil_append, List.append_assoc]
    norm_num
  · intro q rest cursor acc hq
    have hne : ¬ q.length = 1000 := by omega
    simp only [returnTagsLoop, fetchData_okResponse, hne, if_false]

/-- Witness for C1: two full pages and one 400-pool page on mainnet. -/
theorem returnTags_three_pages_witness :
    prepareUrl "1" "k" = Except.ok mainnetUrlKeyK ∧
    (List.replicate 1000 usdcWethPool).length = 1000 ∧
    (List.replicate 400 usdcWethPool).length = 400 ∧
    returnTags "1" "k"
        (okResponse (List.replicate 1000 usdcWethPool) ::
         okResponse (List.replicate 1000 usdcWethPool) ::
         okResponse (List.replicate 400 usdcWethPool) :: []) =
      ([0,
        ((List.replicate 1000 usdcWethPool).getLastD defaultPool).createdAtTimestamp,
        ((List.replicate 1000 usdcWethPool).getLastD defaultPool).createdAtTimestamp],
       RunOutcome.tags
         (transformPoolsToTags "1" (List.replicate 1000 usdcWethPool) ++
          (transformPoolsToTags "1" (List.replicate 1000 usdcWethPool) ++
           transformPoolsToTags "1" (List.replicate 400 usdcWethPool)))) :=
  ⟨rfl, List.length_replicate 1000 usdcWethPool,
   List.length_replicate 400 usdcWethPool,
   (returnTags_three_pages "1" "k" mainnetUrlKeyK
      (List.replicate 1000 usdcWethPool) (List.replicate 1000 usdcWethPool)
      (List.replicate 400 usdcWethPool) [] rfl
      (List.length_replicate 1000 usdcWethPool)
      (List.length_replicate 1000 usdcWethPool)
      (List.length_replicate 400 usdcWethPool)).1⟩

/-- Claim C2: if a page fetch of a run of `returnTags` fails (after any
number of successfully fetched full pages), the whole run rejects with the
wrapped error whose message embeds the original message, and no tag list,
not even a partial one, is resolved. -/
theorem returnTags_no_partial_on_failure (chainId apiKey url : String)
    (pre post : List FetchResponse) (r : FetchResponse) (msg : String)
    (hurl : prepareUrl chainId apiKey = Except.ok url)
    (hpre : ∀ s ∈ pre, ∃ pools, (fetchData s).2 = Except.ok pools ∧
      pools.length = 1000)
    (hfail : (fetchData r).2 = Except.error msg) (hmsg : msg ≠ "") :
    ∃ reqs, returnTags chainId apiKey (pre ++ r :: post) =
      (reqs, RunOutcome.err ("Failed fetching data: Error: " ++ msg)) := by
  obtain ⟨cursor', acc', reqs, heq⟩ :=
    returnTagsLoop_full_prefix chainId pre (r :: post) 0 [] hpre
  refine ⟨reqs ++ [cursor'], ?_⟩
  simp only [returnTags, hurl, heq]
  simp only [returnTagsLoop, hfail, wrapCaughtError, jsErrorToString, hmsg,
    if_false]
  rw [← String.append_assoc]
  rfl

/-- Witness for C2: a single HTTP 500 response on mainnet. -/
theorem returnTags_no_partial_on_failure_witness :
    prepareUrl "1" "k" = Except.ok mainnetUrlKeyK ∧
    (fetchData http500Response).2 = Except.error "HTTP error: 500" ∧
    "HTTP error: 500" ≠ "" ∧
    ∃ reqs, returnTags "1" "k" ([] ++ http500Response :: []) =
      (reqs, RunOutcome.err ("Failed fetching data: Error: " ++
        "HTTP error: 500")) :=
  ⟨rfl, rfl, by decide,
   returnTags_no_partial_on_failure "1" "k" mainnetUrlKeyK [] []
     http500Response "HTTP error: 500" rfl (by simp) rfl (by decide)⟩

/-- Claim C3: a pool one of whose token names or symbols contains an
HTML-tag-like substring is dropped by the filter pass, and the output tags
are exactly the valid pools mapped in place, so no tag derived from the
flagged pool appears. -/
theorem html_pool_excluded (chainId : String) (pools : List Pool)
    (pool : Pool) (_hmem : pool ∈ pools)
    (hbad : containsHtmlOrMarkdown pool.token0.name = true ∨
      containsHtmlOrMarkdown pool.token0.symbol = true ∨
      containsHtmlOrMarkdown pool.token1.name = true ∨
      containsHtmlOrMarkdown pool.token1.symbol = true) :
    pool ∉ validPools pools ∧
    transformPoolsToTags chainId pools =
      (validPools pools).map (poolToTag chainId) := by
  refine ⟨?_, rfl⟩
  intro hmem'
  rw [validPools] at hmem'
  have hfalse : (!poolRejected pool) = true := (List.mem_filter.mp hmem').2
  have htrue : poolRejected pool = true := by
    simp only [poolRejected, token0Invalid, token1Invalid, Bool.or_eq_true]
    rcases hbad with h | h | h | h <;> simp [h]
  rw [htrue] at hfalse
  exact Bool.false_ne_true hfalse

/-- Witness for C3: a pool with a script tag in a token name. -/
theorem html_pool_excluded_witness :
    scriptPool ∈ [scriptPool] ∧
    containsHtmlOrMarkdown scriptPool.token0.name = true ∧
    scriptPool ∉ validPools [scriptPool] ∧
    transformPoolsToTags "1" [scriptPool] =
      (validPools [scriptPool]).map (poolToTag "1") :=
  ⟨List.mem_singleton_self scriptPool, by decide,
   html_pool_excluded "1" [scriptPool] scriptPool
     (List.mem_singleton_self scriptPool) (Or.inl (by decide))⟩

/-- Claim C4: when the combined symbol string of a valid pool exceeds 45
characters, the symbols portion of the produced name tag is truncated to
exactly 45 characters whose last three are the ellipsis, before the
`" Pool"` suffix is appended. -/
theorem long_symbols_truncated (chainId : String) (pool : Pool)
    (h : (pool.token0.symbol ++ "/" ++ pool.token1.symbol).length > 45) :
    (truncateString (pool.token0.symbol ++ "/" ++ pool.token1.symbol)
      45).length = 45 ∧
    (truncateString (pool.token0.symbol ++ "/" ++ pool.token1.symbol)
      45).data.drop 42 = ['.', '.', '.'] ∧
    (poolToTag chainId pool).publicNameTag =
      truncateString (pool.token0.symbol ++ "/" ++ pool.token1.symbol) 45 ++
        " Pool" := by
  have hdata : (pool.token0.symbol ++ "/" ++ pool.token1.symbol).data.length > 45 := h
  have htake :
      ((pool.token0.symbol ++ "/" ++ pool.token1.symbol).data.take (45 - 3)).length
        = 42 := by
    rw [List.length_take]
    omega
  refine ⟨?_, ?_, rfl⟩
  · rw [truncateString, if_pos h, String.length_append]
    have hmk :
        (String.mk ((pool.token0.symbol ++ "/" ++ pool.token1.symbol).data.take
          (45 - 3))).length = 42 := htake
    rw [hmk]
    rfl
  · rw [truncateString, if_pos h, String.data_append]
    rw [show ("..." : String).data = ['.', '.', '.'] from rfl]
    calc ((pool.token0.symbol ++ "/" ++ pool.token1.symbol).data.take (45 - 3) ++
          ['.', '.', '.']).drop 42
        = ((pool.token0.symbol ++ "/" ++ pool.token1.symbol).data.take (45 - 3) ++
          ['.', '.', '.']).drop
            ((pool.token0.symbol ++ "/" ++ pool.token1.symbol).data.take
              (45 - 3)).length := by rw [htake]
      _ = ['.', '.', '.'] := List.drop_left _ _

/-- Witness for C4: a 61-character combined symbol string. -/
theorem long_symbols_truncated_witness :
    (longSymbolsPool.token0.symbol ++ "/" ++
      longSymbolsPool.token1.symbol).length > 45 ∧
    (truncateString (longSymbolsPool.token0.symbol ++ "/" ++
      longSymbolsPool.token1.symbol) 45).length = 45 ∧
    (truncateString (longSymbolsPool.token0.symbol ++ "/" ++
      longSymbolsPool.token1.symbol) 45).data.drop 42 = ['.', '.', '.'] ∧
    (poolToTag "1" longSymbolsPool).publicNameTag =
      truncateString (longSymbolsPool.token0.symbol ++ "/" ++
        longSymbolsPool.token1.symbol) 45 ++ " Pool" :=
  ⟨by decide, long_symbols_truncated "1" longSymbolsPool (by decide)⟩

/-- Claim C5: for every chain identifier outside the supported set,
`prepareUrl` fails, for any API key, with the unsupported-chain error
listing the supported identifiers. -/
theorem prepareUrl_unsupported (chainId apiKey : String)
    (h : chainId ∉ subgraphUrlKeys) :
    prepareUrl chainId apiKey = Except.error
      ("Unsupported or invalid Chain ID provided: " ++ chainId ++
       ". Only the following values are accepted: 1, 10, 137, 42220") := by
  simp only [subgraphUrlKeys, List.mem_cons, List.not_mem_nil, or_false,
    not_or] at h
  obtain ⟨h1, h10, h137, h42220⟩ := h
  simp only [prepareUrl, SUBGRAPH_URLS, h1, h137, h10, h42220, if_false]
  rw [unsupportedChainMessage, String.append_assoc]
  rfl

/-- Witness for C5: the unsupported chain id 9999. -/
theorem prepareUrl_unsupported_witness :
    "9999" ∉ subgraphUrlKeys ∧
    prepareUrl "9999" "K" = Except.error
      ("Unsupported or invalid Chain ID provided: " ++ "9999" ++
       ". Only the following values are accepted: 1, 10, 137, 42220") :=
  ⟨by decide, prepareUrl_unsupported "9999" "K" (by decide)⟩

/-- Claim C6: every valid (non-rejected) pool is mapped to the tag whose
address is `eip155:<chainId>:<poolId>`, whose name tag is the possibly
truncated symbol pair with the `" Pool"` suffix, whose project name and
website link are the fixed constants, and whose note is the fixed template
embedding both token names and symbols; in particular the USDC/WETH
example pool on chain 1 yields exactly the example tag of the spec. -/
theorem valid_pool_tag_shape (chainId : String) (pools : List Pool)
    (pool : Pool) (hmem : pool ∈ pools)
    (hvalid : poolRejected pool = false) :
    poolToTag chainId pool ∈ transformPoolsToTags chainId pools ∧
    (poolToTag chainId pool).contractAddress =
      "eip155:" ++ chainId ++ ":" ++ pool.id ∧
    (poolToTag chainId pool).publicNameTag =
      truncateString (pool.token0.symbol ++ "/" ++ pool.token1.symbol) 45 ++
        " Pool" ∧
    (poolToTag chainId pool).projectName = "Uniswap v3" ∧
    (poolToTag chainId pool).websiteLink = "https://uniswap.org" ∧
    (poolToTag chainId pool).publicNote =
      "The liquidity pool contract on Uniswap v3 for the " ++
        pool.token0.name ++ " (" ++ pool.token0.symbol ++ ") / " ++
        pool.token1.name ++ " (" ++ pool.token1.symbol ++ ") pair." ∧
    transformPoolsToTags "1" [usdcWethPool] =
      [{ contractAddress := "eip155:1:0xabc",
         publicNameTag := "USDC/WETH Pool",
         projectName := "Uniswap v3",
         websiteLink := "https://uniswap.org",
         publicNote := "The liquidity pool contract on Uniswap v3 for the USD Coin (USDC) / Wrapped Ether (WETH) pair." }] := by
  refine ⟨?_, rfl, rfl, rfl, rfl, rfl, by decide⟩
  rw [transformPoolsToTags]
  refine List.mem_map_of_mem (poolToTag chainId) ?_
  rw [validPools]
  exact List.mem_filter.mpr ⟨hmem, by simp [hvalid]⟩

/-- Witness for C6: the USDC/WETH example pool among the inputs. -/
theorem valid_pool_tag_shape_witness :
    usdcWethPool ∈ [scriptPool, usdcWethPool] ∧
    poolRejected usdcWethPool = false ∧
    poolToTag "1" usdcWethPool ∈
      transformPoolsToTags "1" [scriptPool, usdcWethPool] ∧
    (poolToTag "1" usdcWethPool).contractAddress =
      "eip155:" ++ "1" ++ ":" ++ usdcWethPool.id :=
  ⟨by decide, by decide,
   (valid_pool_tag_shape "1" [scriptPool, usdcWethPool] usdcWethPool
     (by decide) (by decide)).1,
   (valid_pool_tag_shape "1" [scriptPool, usdcWethPool] usdcWethPool
     (by decide) (by decide)).2.1⟩

/-- Claim C7: a delivered response whose body carries a non-empty errors
array makes `fetchData` log each contained message and throw the generic
GraphQL-errors message, so `returnTags` rejects with that message
wrapped. -/
theorem fetchData_graphql_errors (resp : FetchResponse)
    (errs : List GraphQLError) (hok : resp.ok = true)
    (herr : resp.body.errors = some errs) (_hne : errs ≠ []) :
    fetchData resp =
      (errs.map (fun e => "GraphQL error: " ++ e.message),
       Except.error "GraphQL errors occurred: see logs for details.") ∧
    ∀ (chainId apiKey url : String) (post : List FetchResponse),
      prepareUrl chainId apiKey = Except.ok url →
      returnTags chainId apiKey (resp :: post) =
        ([0], RunOutcome.err
          "Failed fetching data: Error: GraphQL errors occurred: see logs for details.") := by
  have hfd : fetchData resp =
      (errs.map (fun e => "GraphQL error: " ++ e.message),
       Except.error "GraphQL errors occurred: see logs for details.") := by
    simp [fetchData, hok, herr]
  refine ⟨hfd, ?_⟩
  intro chainId apiKey url post hurl
  simp only [returnTags, hurl, returnTagsLoop, hfd]
  rfl

/-- Witness for C7: one response with a single GraphQL error. -/
theorem fetchData_graphql_errors_witness :
    graphqlErrorResponse.ok = true ∧
    graphqlErrorResponse.body.errors = some [{ message := "bad query" }] ∧
    ([{ message := "bad query" }] : List GraphQLError) ≠ [] ∧
    prepareUrl "1" "k" = Except.ok mainnetUrlKeyK ∧
    fetchData graphqlErrorResponse =
      (([{ message := "bad query" }] : List GraphQLError).map
        (fun e => "GraphQL error: " ++ e.message),
       Except.error "GraphQL errors occurred: see logs for details.") ∧
    returnTags "1" "k" (graphqlErrorResponse :: []) =
      ([0], RunOutcome.err
        "Failed fetching data: Error: GraphQL errors occurred: see logs for details.") :=
  ⟨rfl, rfl, by decide, rfl,
   (fetchData_graphql_errors graphqlErrorResponse [{ message := "bad query" }]
     rfl rfl (by decide)).1,
   (fetchData_graphql_errors graphqlErrorResponse [{ message := "bad query" }]
     rfl rfl (by decide)).2 "1" "k" mainnetUrlKeyK [] rfl⟩

/-- Claim C8: the transformer is a function of the chain id and the pool
list alone, distributes over concatenation of pool lists, and equals the
in-order filter of valid pools mapped in place to tags, hence preserves
the relative order of valid pools. -/
theorem transform_pure_append (chainId : String) :
    (∀ xs ys : List Pool,
      transformPoolsToTags chainId (xs ++ ys) =
        transformPoolsToTags chainId xs ++ transformPoolsToTags chainId ys) ∧
    (∀ pools : List Pool,
      transformPoolsToTags chainId pools =
        (pools.filter fun p => !poolRejected p).map (poolToTag chainId)) := by
  constructor
  · intro xs ys
    simp [transformPoolsToTags, validPools, List.filter_append]
  · intro pools
    rfl

/-- Claim C9, counterexample: `truncateString` CAN return a string longer
than its `maxLength` argument — at `maxLength` 2 the input `abcd` yields
the 3-character ellipsis — refuting the parenthetical of the claim as
stated. -/
theorem truncateString_exceeds_maxLength :
    truncateString "abcd" 2 = "..." ∧
    2 < (truncateString "abcd" 2).length := by
  decide

/-- Claim C9 (amended): `truncateString` never returns a string longer
than `maxLength` whenever `maxLength` is at least 3 (the transformer
always calls it with 45), and consequently every public name tag produced
by the transformer has length at most 50. -/
theorem nameTag_length_le_fifty :
    (∀ (text : String) (maxLength : Nat), 3 ≤ maxLength →
      (truncateString text maxLength).length ≤ maxLength) ∧
    (∀ (chainId : String) (pools : List Pool) (tag : ContractTag),
      tag ∈ transformPoolsToTags chainId pools →
      tag.publicNameTag.length ≤ 50) := by
  have htrunc : ∀ (text : String) (maxLength : Nat), 3 ≤ maxLength →
      (truncateString text maxLength).length ≤ maxLength := by
    intro text maxLength h3
    unfold truncateString
    split
    · rw [String.length_append]
      have hmk : (String.mk (text.data.take (maxLength - 3))).length =
          (text.data.take (maxLength - 3)).length := rfl
      rw [hmk, List.length_take]
      have hdots : ("..." : String).length = 3 := rfl
      rw [hdots]
      have hmin := Nat.min_le_left (maxLength - 3) text.data.length
      omega
    · rename_i hle
      omega
  refine ⟨htrunc, ?_⟩
  intro chainId pools tag htag
  rw [transformPoolsToTags] at htag
  obtain ⟨pool, -, rfl⟩ := List.mem_map.mp htag
  show (truncateString (pool.token0.symbol ++ "/" ++ pool.token1.symbol) 45 ++
    " Pool").length ≤ 50
  rw [String.length_append]
  have h45 := htrunc (pool.token0.symbol ++ "/" ++ pool.token1.symbol) 45
    (by omega)
  have hp : (" Pool" : String).length = 5 := rfl
  omega

/-- Witness for C9 (amended): the bound evaluated at a short input and at
the USDC/WETH tag. -/
theorem nameTag_length_le_fifty_witness :
    3 ≤ 45 ∧ (truncateString "abcdefgh" 45).length ≤ 45 ∧
    poolToTag "1" usdcWethPool ∈ transformPoolsToTags "1" [usdcWethPool] ∧
    (poolToTag "1" usdcWethPool).publicNameTag.length ≤ 50 :=
  ⟨by omega, nameTag_length_le_fifty.1 "abcdefgh" 45 (by omega),
   by decide,
   nameTag_length_le_fifty.2 "1" [usdcWethPool] (poolToTag "1" usdcWethPool)
     (by decide)⟩

/-- Claim C10: a delivered response whose body carries a present but EMPTY
errors array still makes `fetchData` throw the generic GraphQL-errors
message — the check is on the presence of the field, not on the array
being non-empty — while logging zero individual messages, so `returnTags`
rejects. -/
theorem fetchData_empty_errors (resp : FetchResponse) (hok : resp.ok = true)
    (herr : resp.body.errors = some []) :
    fetchData resp =
      ([], Except.error "GraphQL errors occurred: see logs for details.") ∧
    ∀ (chainId apiKey url : String) (post : List FetchResponse),
      prepareUrl chainId apiKey = Except.ok url →
      returnTags chainId apiKey (resp :: post) =
        ([0], RunOutcome.err
          "Failed fetching data: Error: GraphQL errors occurred: see logs for details.") := by
  have hfd : fetchData resp =
      ([], Except.error "GraphQL errors occurred: see logs for details.") := by
    simp [fetchData, hok, herr]
  refine ⟨hfd, ?_⟩
  intro chainId apiKey url post hurl
  simp only [returnTags, hurl, returnTagsLoop, hfd]
  rfl

/-- Witness for C10: a 200 response with `errors: []` next to good
data. -/
theorem fetchData_empty_errors_witness :
    emptyErrorsResponse.ok = true ∧
    emptyErrorsResponse.body.errors = some [] ∧
    prepareUrl "1" "k" = Except.ok mainnetUrlKeyK ∧
    fetchData emptyErrorsResponse =
      ([], Except.error "GraphQL errors occurred: see logs for details.") ∧
    returnTags "1" "k" (emptyErrorsResponse :: []) =
      ([0], RunOutcome.err
        "Failed fetching data: Error: GraphQL errors occurred: see logs for details.") :=
  ⟨rfl, rfl, rfl,
   (fetchData_empty_errors emptyErrorsResponse rfl rfl).1,
   (fetchData_empty_errors emptyErrorsResponse rfl rfl).2 "1" "k"
     mainnetUrlKeyK [] rfl⟩

end ATQ
